import Mathlib

/-!
Shallow embedding of drivers/soc/samsung/lazyplug.c (lazyplug hotplug
controller, version 2.1).

Machine integers: the driver works with C unsigned int (32-bit); we model
them as Nat with explicit reduction `% U32` at the operations where C
overflow/truncation can occur (the hysteresis addition, the fixed-point
shift, the truncating assignment of Lavg_nr_running() to unsigned int).
`persist_count` is a C `int` and is modelled as Int.

Hotplug calls (cpu_up / cpu_down / cpu_down_nocheck) are modelled as an
emitted command list (the PowerControl interface); the online/offline map
of the cpus is threaded through explicitly.
-/

namespace Lazyplug

/-- 2^32, the modulus of C unsigned int arithmetic. -/
def U32 : Nat := 4294967296

/-- UINT_MAX, the sentinel terminating every threshold table. -/
def UINT_MAX : Nat := 4294967295

/-- FSHIFT is the kernel fixed-point shift from include/linux/sched.h
(not part of src/; its standard value is 11).  Only its difference with
nr_fshift enters the driver. -/
def FSHIFT : Nat := 11

/-- DEF_SAMPLING_MS (line 80). -/
def DEF_SAMPLING_MS : Nat := 132

/-- DEF_IDLE_COUNT (line 81): 132 * 19 = 2508 ms of consecutive idling. -/
def DEF_IDLE_COUNT : Nat := 19

/-- BUSY_PERSISTENCE (line 83): 3500 / 132 = 26 ticks of resume cooldown. -/
def BUSY_PERSISTENCE : Nat := 3500 / DEF_SAMPLING_MS

/-- CAPACITY_RESERVE (line 117). -/
def CAPACITY_RESERVE : Nat := 50

/-- THREAD_CAPACITY (line 118): 520 - 50 = 470. -/
def THREAD_CAPACITY : Nat := 520 - CAPACITY_RESERVE

/-- MULT_FACTOR (line 119). -/
def MULT_FACTOR : Nat := 4

/-- DIV_FACTOR (line 120). -/
def DIV_FACTOR : Nat := 100000

/-- NR_RUN_ECO_MODE_PROFILE (line 177): selectors at or above 3 use the
eco-family table size and fixed-point shift. -/
def NR_RUN_ECO_MODE_PROFILE : Nat := 3

/-- CPU_NR_THRESHOLD (line 183): (470 << 1) + 470 / 2 = 1175. -/
def CPU_NR_THRESHOLD : Nat := (THREAD_CAPACITY <<< 1) + THREAD_CAPACITY / 2

/-- nr_run_thresholds_balance (lines 125-130). -/
def nr_run_thresholds_balance : List Nat :=
  [THREAD_CAPACITY * 625 * MULT_FACTOR / DIV_FACTOR,
   THREAD_CAPACITY * 875 * MULT_FACTOR / DIV_FACTOR,
   THREAD_CAPACITY * 1125 * MULT_FACTOR / DIV_FACTOR,
   UINT_MAX]

/-- nr_run_thresholds_performance (lines 132-137). -/
def nr_run_thresholds_performance : List Nat :=
  [THREAD_CAPACITY * 380 * MULT_FACTOR / DIV_FACTOR,
   THREAD_CAPACITY * 625 * MULT_FACTOR / DIV_FACTOR,
   THREAD_CAPACITY * 875 * MULT_FACTOR / DIV_FACTOR,
   UINT_MAX]

/-- nr_run_thresholds_conservative (lines 139-144). -/
def nr_run_thresholds_conservative : List Nat :=
  [THREAD_CAPACITY * 875 * MULT_FACTOR / DIV_FACTOR,
   THREAD_CAPACITY * 1625 * MULT_FACTOR / DIV_FACTOR,
   THREAD_CAPACITY * 2125 * MULT_FACTOR / DIV_FACTOR,
   UINT_MAX]

/-- nr_run_thresholds_eco (lines 146-149). -/
def nr_run_thresholds_eco : List Nat :=
  [THREAD_CAPACITY * 380 * MULT_FACTOR / DIV_FACTOR,
   UINT_MAX]

/-- nr_run_thresholds_eco_extreme (lines 151-154). -/
def nr_run_thresholds_eco_extreme : List Nat :=
  [THREAD_CAPACITY * 750 * MULT_FACTOR / DIV_FACTOR,
   UINT_MAX]

/-- nr_run_thresholds_disable (lines 156-158). -/
def nr_run_thresholds_disable : List Nat :=
  [0, 0, 0, UINT_MAX]

/-- nr_run_thresholds_lazy (lines 160-165). -/
def nr_run_thresholds_lazy : List Nat :=
  [THREAD_CAPACITY * 995 * MULT_FACTOR / DIV_FACTOR,
   THREAD_CAPACITY * 1875 * MULT_FACTOR / DIV_FACTOR,
   THREAD_CAPACITY * 2350 * MULT_FACTOR / DIV_FACTOR,
   UINT_MAX]

/-- nr_run_profiles (lines 167-175): the seven profile tables in selector
order.  Selector 6 is the lazy profile. -/
def nr_run_profiles : List (List Nat) :=
  [nr_run_thresholds_balance,
   nr_run_thresholds_performance,
   nr_run_thresholds_conservative,
   nr_run_thresholds_eco,
   nr_run_thresholds_eco_extreme,
   nr_run_thresholds_disable,
   nr_run_thresholds_lazy]

/-- threshold_size as computed in calculate_thread_stats (lines 244-249):
ARRAY_SIZE(nr_run_thresholds_eco) = 2 for selectors >= 3, else
ARRAY_SIZE(nr_run_thresholds_balance) = 4. -/
def threshold_size (sel : Nat) : Nat :=
  if NR_RUN_ECO_MODE_PROFILE ≤ sel then nr_run_thresholds_eco.length
  else nr_run_thresholds_balance.length

/-- nr_fshift as set in calculate_thread_stats (lines 251-254). -/
def nr_fshift_of (sel : Nat) : Nat :=
  if NR_RUN_ECO_MODE_PROFILE ≤ sel then 1 else 3

/-- Lines 257-261 of calculate_thread_stats: the threshold read for loop
index nr_run is current_profile[nr_run - 1], with the hysteresis constant
added (in unsigned-int arithmetic) exactly when nr_run_last <= nr_run. -/
def nr_threshold_adjusted (profile : List Nat) (nr_run_last hyst nr_run : Nat) : Nat :=
  let t := profile.getD (nr_run - 1) 0
  if nr_run_last ≤ nr_run then (t + hyst) % U32 else t

/-- The scan loop of calculate_thread_stats (lines 256-264): starting at
index nr_run with fuel = threshold_size - nr_run iterations left, return
the first index at which avg_nr_run <= the shifted adjusted threshold, or
nr_run + fuel (= threshold_size) if no break occurs. -/
def ctsGo (profile : List Nat) (nr_run_last hyst shift avgm : Nat) : Nat → Nat → Nat
  | 0, nr_run => nr_run
  | fuel + 1, nr_run =>
    if avgm ≤ (nr_threshold_adjusted profile nr_run_last hyst nr_run <<< shift) % U32 then
      nr_run
    else
      ctsGo profile nr_run_last hyst shift avgm fuel (nr_run + 1)

/-- calculate_thread_stats (lines 235-268) as a function of the globals it
reads: the profile selector, the previous result nr_run_last, the
hysteresis module parameter, and the truncated sample Lavg_nr_running().
The loop runs nr_run = 1 .. threshold_size - 1.  The caller stores the
result back into nr_run_last. -/
def calculate_thread_stats (sel nr_run_last hyst avg : Nat) : Nat :=
  ctsGo (nr_run_profiles.getD sel []) nr_run_last hyst
    (FSHIFT - nr_fshift_of sel) (avg % U32) (threshold_size sel - 1) 1

/-- A PowerControl command: cpu_up or cpu_down of a worker index. -/
inductive Cmd where
  | up : Nat → Cmd
  | down : Nat → Cmd
deriving DecidableEq, Repr

/-- Effect of one hotplug command on the online map. -/
def applyCmd (online : Nat → Bool) : Cmd → Nat → Bool
  | Cmd.up c => fun x => if x = c then true else online x
  | Cmd.down c => fun x => if x = c then false else online x

/-- Effect of a command batch, applied left to right. -/
def applyCmds (online : Nat → Bool) (l : List Cmd) : Nat → Bool :=
  l.foldl applyCmd online

/-- The mutable module state of the driver: module parameters, the static
locals, and the online/per-cpu maps.  NR_CPUS and nr_cpu_ids are the
compile-time and runtime cpu counts. -/
structure LPState where
  lazyplug_active : Nat
  nr_run_profile_sel : Nat
  Lnr_run_profile_sel : Nat
  nr_run_hysteresis : Nat
  nr_possible_cores : Nat
  cpu_nr_run_threshold : Nat
  nr_run_last : Nat
  idle_count : Nat
  persist_count : Int
  suspended : Bool
  cac_bool : Bool
  lazymode : Bool
  NR_CPUS : Nat
  nr_cpu_ids : Nat
  online : Nat → Bool
  ip_info : Nat → Nat

/-- cpu_all_ctrl (lines 212-233): online=true brings up cpus 1..3 in lazy
mode, else cpus 1..nr_cpu_ids-1, smaller first; online=false takes down
cpus nr_cpu_ids-1..2, bigger first.  (Assumes nr_cpu_ids >= 1, as in the
kernel.) -/
def cpu_all_ctrl (lazymode : Bool) (nr_cpu_ids : Nat) (online : Bool) : List Cmd :=
  if online then
    if lazymode then [Cmd.up 1, Cmd.up 2, Cmd.up 3]
    else (List.range' 1 (nr_cpu_ids - 1)).map Cmd.up
  else ((List.range' 2 (nr_cpu_ids - 2)).reverse).map Cmd.down

/-- set_cpus (lines 310-321): walk cpus nr_cpu_ids-1..1 and take down every
online cpu whose index is at or above nr_possible_cores. -/
def set_cpus (s : LPState) : List Cmd :=
  (((List.range' 1 (s.nr_cpu_ids - 1)).reverse).filter
    (fun c => s.online c && decide (s.nr_possible_cores ≤ c))).map Cmd.down

/-- num_online_cpus(): the number of online cpus. -/
def num_online_cpus (online : Nat → Bool) (nr_cpu_ids : Nat) : Nat :=
  ((List.range nr_cpu_ids).filter online).length

/-- Lines 300-301 of unplug_cpu: `cpu_nr_run_threshold << 1 / (num_online_cpus())`.
By C precedence the division binds tighter than the shift, so this is the
base threshold shifted left by 1/num_online (1 when exactly one cpu is
online, 0 otherwise), reduced as unsigned int. -/
def l_nr_threshold (cpu_nr_run_threshold num_online : Nat) : Nat :=
  (cpu_nr_run_threshold <<< (1 / num_online)) % U32

/-- The loop body of unplug_cpu (lines 296-307) over the remaining cpu
indices: skip offline cpus; recompute the per-cpu threshold from the
current online count; take a cpu down when it is above min_active_cpu and
its recorded per-cpu run average is strictly below the threshold. -/
def unplugLoop (ip : Nat → Nat) (base min_active nr_cpu_ids : Nat) :
    List Nat → (Nat → Bool) → ((Nat → Bool) × List Cmd)
  | [], online => (online, [])
  | c :: rest, online =>
    if online c then
      let thr := l_nr_threshold base (num_online_cpus online nr_cpu_ids)
      if min_active < c ∧ ip c < thr then
        let r := unplugLoop ip base min_active nr_cpu_ids rest
          (fun x => if x = c then false else online x)
        (r.1, Cmd.down c :: r.2)
      else unplugLoop ip base min_active nr_cpu_ids rest online
    else unplugLoop ip base min_active nr_cpu_ids rest online

/-- unplug_cpu (lines 290-308): iterate cpus nr_cpu_ids-1..1. -/
def unplug_cpu (s : LPState) (min_active_cpu : Nat) : (Nat → Bool) × List Cmd :=
  unplugLoop s.ip_info s.cpu_nr_run_threshold min_active_cpu s.nr_cpu_ids
    ((List.range' 1 (s.nr_cpu_ids - 1)).reverse) s.online

/-- The batch offline command of the idle-shutdown path (lines 354-359)
and of lazyplug_enter_lazy (lines 457-462): cpus 7..2, highest first. -/
def batchDown : List Cmd :=
  [Cmd.down 7, Cmd.down 6, Cmd.down 5, Cmd.down 4, Cmd.down 3, Cmd.down 2]

/-- lazyplug_work_fn (lines 323-394), one periodic tick.  Inputs: the
per-cpu load snapshot read by update_per_cpu_stat and the system sample
read by calculate_thread_stats.  Returns the next state and the hotplug
commands issued during the tick.  The local old_nr is initialised to
NR_CPUS on every call (its assignment at line 391 is dead), so set_cpus
runs whenever NR_CPUS > nr_possible_cores.  The rescheduling of the work
item has no state effect and is not modelled. -/
def lazyplug_work_fn (percpu : Nat → Nat) (avg : Nat) (s : LPState) : LPState × List Cmd :=
  if s.lazyplug_active ≠ 0 then
    let nr_run_stat := calculate_thread_stats s.nr_run_profile_sel s.nr_run_last
      s.nr_run_hysteresis avg
    let s1 : LPState := { s with
      nr_run_last := nr_run_stat
      ip_info := fun c => if s.online c then percpu c else s.ip_info c }
    let setCmds := if s1.nr_possible_cores < s1.NR_CPUS then set_cpus s1 else []
    let s2 : LPState := { s1 with online := applyCmds s1.online setCmds }
    if s2.suspended = false then
      let persist1 : Int :=
        if 0 < s2.persist_count then s2.persist_count - 1 else s2.persist_count
      if nr_run_stat = 1 then
        let idle1 :=
          if s2.idle_count < DEF_IDLE_COUNT then s2.idle_count + 1 else s2.idle_count
        if idle1 = DEF_IDLE_COUNT ∧ persist1 = 0 then
          ({ s2 with
              persist_count := persist1
              idle_count := idle1
              online := applyCmds s2.online batchDown }, setCmds ++ batchDown)
        else
          ({ s2 with persist_count := persist1, idle_count := idle1 }, setCmds)
      else
        let ups := cpu_all_ctrl s2.lazymode s2.nr_cpu_ids true
        ({ s2 with
            persist_count := persist1
            idle_count := 0
            online := applyCmds s2.online ups }, setCmds ++ ups)
    else (s2, setCmds)
  else (s, [])

/-- lazyplug_suspend (lines 404-421): mark suspended, set cac_bool false
and queue lazyplug_cac with no delay; the queued work runs
cpu_all_ctrl(cac_bool), modelled synchronously. -/
def lazyplug_suspend (s : LPState) : LPState × List Cmd :=
  if s.lazyplug_active ≠ 0 then
    let s1 : LPState := { s with suspended := true, cac_bool := false }
    let cmds := cpu_all_ctrl s1.lazymode s1.nr_cpu_ids s1.cac_bool
    ({ s1 with online := applyCmds s1.online cmds }, cmds)
  else (s, [])

/-- lazyplug_resume (lines 423-442): reset persist_count to
BUSY_PERSISTENCE, clear suspended, schedule cpu_all_up_work
(cpu_all_ctrl(true)) and set cac_bool true before queueing lazyplug_cac;
both queued works are modelled synchronously, in queue order. -/
def lazyplug_resume (s : LPState) : LPState × List Cmd :=
  if s.lazyplug_active ≠ 0 then
    let s1 : LPState := { s with
      persist_count := (BUSY_PERSISTENCE : Int)
      suspended := false
      cac_bool := true }
    let cmds := cpu_all_ctrl s1.lazymode s1.nr_cpu_ids true ++
      cpu_all_ctrl s1.lazymode s1.nr_cpu_ids s1.cac_bool
    ({ s1 with online := applyCmds s1.online cmds }, cmds)
  else (s, [])

/-- lazyplug_enter_lazy (lines 444-475).  enter && !lazymode: save the
selector, switch to profile 6, take cpus 7..2 down (cpu_down_nocheck).
!enter && lazymode: restore the saved selector, clear lazymode, set
cac_bool true and queue lazyplug_cac (cpu_all_ctrl with the now-cleared
lazymode).  Anything else is a no-op. -/
def lazyplug_enter_lazy (enter : Bool) (s : LPState) : LPState × List Cmd :=
  if enter && !s.lazymode then
    let s1 : LPState := { s with
      Lnr_run_profile_sel := s.nr_run_profile_sel
      nr_run_profile_sel := 6
      lazymode := true }
    ({ s1 with online := applyCmds s1.online batchDown }, batchDown)
  else if !enter && s.lazymode then
    let s1 : LPState := { s with
      nr_run_profile_sel := s.Lnr_run_profile_sel
      lazymode := false
      cac_bool := true }
    let cmds := cpu_all_ctrl s1.lazymode s1.nr_cpu_ids s1.cac_bool
    ({ s1 with online := applyCmds s1.online cmds }, cmds)
  else (s, [])

/-- n periodic ticks from s, with per-tick sample sequence avgs and
per-tick per-cpu snapshots percpu. -/
def iterTicks (percpu : Nat → Nat → Nat) (avgs : Nat → Nat) (s : LPState) : Nat → LPState
  | 0 => s
  | n + 1 => (lazyplug_work_fn (percpu n) (avgs n) (iterTicks percpu avgs s n)).1

/-- The commands issued by tick n (0-based) of the run iterTicks. -/
def cmdsAt (percpu : Nat → Nat → Nat) (avgs : Nat → Nat) (s : LPState) (n : Nat) : List Cmd :=
  (lazyplug_work_fn (percpu n) (avgs n) (iterTicks percpu avgs s n)).2

/-- A default concrete state: octa-core config after lazyplug_init
(selector 0, hysteresis 16, 8 possible cores), all cpus online, active. -/
def s8 : LPState where
  lazyplug_active := 1
  nr_run_profile_sel := 0
  Lnr_run_profile_sel := 0
  nr_run_hysteresis := 16
  nr_possible_cores := 8
  cpu_nr_run_threshold := CPU_NR_THRESHOLD
  nr_run_last := 1
  idle_count := 0
  persist_count := 0
  suspended := false
  cac_bool := true
  lazymode := false
  NR_CPUS := 8
  nr_cpu_ids := 8
  online := fun _ => true
  ip_info := fun _ => 0

/-- The state reached by running lazyplug_suspend while in lazy mode. -/
def sLazy : LPState := { s8 with lazymode := true }

/-- s8 with the display off (suspended). -/
def sSusp : LPState := { s8 with suspended := true }

/-- s8 with only cpus 0..2 online and every per-cpu run average 1000. -/
def sC3 : LPState :=
  { s8 with online := fun c => decide (c < 3), ip_info := fun _ => 1000 }

/-- C2, counterexample.  In the code (line 260) the hysteresis constant is
added when nr_run_last <= nr_run, i.e. when the previous tier is at most
the tier being tested — with previous tier 1 and tested tier 2 the
adjustment is applied although 1 < 2, contradicting the claimed
"previous >= tested" condition; and with previous tier equal to the
resulting tier (both 2) the adjustment is applied and changes the result
(hysteresis 16 gives tier 2, hysteresis 0 gives tier 3 on the same
sample), contradicting the claimed "no adjustment" in that case. -/
theorem C2_counterexample :
    nr_threshold_adjusted nr_run_thresholds_balance 1 16 2 =
      nr_run_thresholds_balance.getD 1 0 + 16
    ∧ ¬ (2 ≤ 1)
    ∧ calculate_thread_stats 0 2 16 4097 = 2
    ∧ calculate_thread_stats 0 2 0 4097 = 3 := by decide

/-- C2 (amended): in the tier lookup, the hysteresis constant is added to
the threshold of the tier being tested exactly when the previous tier is
less than or equal to the tier being tested; in particular, when the
previous tier equals the tier being tested (hence also when it equals the
resulting tier) the adjustment is applied. -/
theorem C2_hysteresis_condition (profile : List Nat) (nr_run_last hyst nr_run : Nat)
    (hpos : 0 < hyst) (hov : profile.getD (nr_run - 1) 0 + hyst < U32) :
    nr_threshold_adjusted profile nr_run_last hyst nr_run =
      profile.getD (nr_run - 1) 0 + hyst ↔ nr_run_last ≤ nr_run := by
  simp only [nr_threshold_adjusted]
  by_cases h : nr_run_last ≤ nr_run
  · rw [if_pos h, Nat.mod_eq_of_lt hov]
    simp [h]
  · rw [if_neg h]
    constructor
    · intro he
      omega
    · intro hc
      exact absurd hc h

/-- Witness for C2_hysteresis_condition at the balance profile, previous
tier 1, tested tier 1. -/
theorem C2_hysteresis_condition_witness :
    (nr_threshold_adjusted nr_run_thresholds_balance 1 16 1 =
      nr_run_thresholds_balance.getD 0 0 + 16) ↔ 1 ≤ 1 :=
  C2_hysteresis_condition nr_run_thresholds_balance 1 16 1 (by decide) (by decide)

/-- C8, counterexample.  With the balance profile (selector 0), previous
tier k = 2 and a sample equal to the scaled threshold of the k-1 = 1
boundary (thresholds[0] = 11, scaled 11 * 2^8 = 2816), the evaluator
returns 1, i.e. it DOES drop below k = 2: the asymmetric band claimed by
the spec does not exist in the downward direction. -/
theorem C8_counterexample :
    calculate_thread_stats 0 2 16
      ((nr_run_thresholds_balance.getD 0 0) <<< (FSHIFT - nr_fshift_of 0)) = 1
    ∧ ¬ (2 ≤ calculate_thread_stats 0 2 16
      ((nr_run_thresholds_balance.getD 0 0) <<< (FSHIFT - nr_fshift_of 0))) := by decide

/-- C8 (amended): for every profile selector and every tier k above the
lowest (2 <= k <= threshold_size), with the default hysteresis constant
16, a sample equal to the scaled threshold at the k-1 boundary
(profile[k-2], the entry tested when deciding tier k-1) makes the
evaluator return k-1 both when the previous tier is k (the code applies
no hysteresis coming down, so it drops to k-1) and when the previous tier
is k-1. -/
theorem C8_boundary (sel k : Nat) (hsel : sel < 7) (hk2 : 2 ≤ k)
    (hk : k ≤ threshold_size sel) :
    calculate_thread_stats sel k 16
      (((nr_run_profiles.getD sel []).getD (k - 2) 0) <<< (FSHIFT - nr_fshift_of sel)) = k - 1
    ∧ calculate_thread_stats sel (k - 1) 16
      (((nr_run_profiles.getD sel []).getD (k - 2) 0) <<< (FSHIFT - nr_fshift_of sel)) = k - 1 := by
  interval_cases sel <;>
    norm_num [threshold_size, NR_RUN_ECO_MODE_PROFILE, nr_run_thresholds_eco,
      nr_run_thresholds_balance] at hk <;>
    interval_cases k <;> exact ⟨by decide, by decide⟩

/-- Witness for C8_boundary at the balance profile, k = 3. -/
theorem C8_boundary_witness :
    calculate_thread_stats 0 3 16
      (((nr_run_profiles.getD 0 []).getD (3 - 2) 0) <<< (FSHIFT - nr_fshift_of 0)) = 3 - 1 :=
  (C8_boundary 0 3 (by decide) (by decide) (by decide)).1

/-- ctsGo with a zero sample breaks at the first tested index. -/
theorem ctsGo_zero_sample (profile : List Nat) (nr_run_last hyst shift f nr : Nat) :
    ctsGo profile nr_run_last hyst shift 0 (f + 1) nr = nr := by
  rw [ctsGo]
  exact if_pos (Nat.zero_le _)

/-- If the (truncated) sample is strictly above every shifted adjusted
threshold tested from nr_run on, the scan runs out of fuel and returns
nr_run + fuel. -/
theorem ctsGo_all_above (profile : List Nat) (nr_run_last hyst shift avgm : Nat) :
    ∀ fuel nr_run,
      (∀ t, nr_run ≤ t → t < nr_run + fuel →
        (nr_threshold_adjusted profile nr_run_last hyst t <<< shift) % U32 < avgm) →
      ctsGo profile nr_run_last hyst shift avgm fuel nr_run = nr_run + fuel := by
  intro fuel
  induction fuel with
  | zero => intro nr _; rfl
  | succ f ih =>
    intro nr h
    have hlt := h nr (Nat.le_refl _) (by omega)
    rw [ctsGo, if_neg (Nat.not_le.mpr hlt)]
    rw [ih (nr + 1) (fun t h1 h2 => h t (by omega) (by omega))]
    omega

/-- C7: for every valid profile selector, previous tier and hysteresis, a
sample of 0 makes the evaluator return the lowest tier 1; and a sample
strictly greater than every tested (finite) threshold after the
fixed-point shift and hysteresis adjustment makes it return the highest
tier of that profile, threshold_size (4 for the balance-family selectors,
2 for the eco-family selectors). -/
theorem C7_tier_extremes (sel nr_run_last hyst avg : Nat) (hsel : sel < 7)
    (hbig : ∀ t, t < threshold_size sel → 1 ≤ t →
      (nr_threshold_adjusted (nr_run_profiles.getD sel []) nr_run_last hyst t <<<
        (FSHIFT - nr_fshift_of sel)) % U32 < avg % U32) :
    calculate_thread_stats sel nr_run_last hyst 0 = 1
    ∧ calculate_thread_stats sel nr_run_last hyst avg = threshold_size sel := by
  have hts : threshold_size sel = 2 ∨ threshold_size sel = 4 := by
    unfold threshold_size
    split
    · left; rfl
    · right; rfl
  constructor
  · obtain ⟨f, hf⟩ : ∃ f, threshold_size sel - 1 = f + 1 := by
      rcases hts with h | h <;> rw [h]
      · exact ⟨0, rfl⟩
      · exact ⟨2, rfl⟩
    unfold calculate_thread_stats
    rw [hf, Nat.zero_mod, ctsGo_zero_sample]
  · have htsz : 1 ≤ threshold_size sel := by rcases hts with h | h <;> omega
    unfold calculate_thread_stats
    rw [ctsGo_all_above _ _ _ _ _ (threshold_size sel - 1) 1
      (fun t h1 h2 => hbig t (by omega) h1)]
    omega

/-- Witness for C7_tier_extremes at the balance profile, previous tier 1,
hysteresis 16, big sample 10000. -/
theorem C7_tier_extremes_witness :
    calculate_thread_stats 0 1 16 0 = 1
    ∧ calculate_thread_stats 0 1 16 10000 = threshold_size 0 :=
  C7_tier_extremes 0 1 16 10000 (by decide) (by decide)

/-- A batch of cpu_up commands turns the listed cpus online and leaves
every other cpu unchanged. -/
theorem applyCmds_map_up (o : Nat → Bool) (xs : List Nat) (c : Nat) :
    applyCmds o (xs.map Cmd.up) c = if c ∈ xs then true else o c := by
  induction xs generalizing o with
  | nil => simp [applyCmds]
  | cons x rest ih =>
    have step : applyCmds o ((x :: rest).map Cmd.up) =
        applyCmds (applyCmd o (Cmd.up x)) (rest.map Cmd.up) := rfl
    rw [step, ih]
    by_cases h1 : c ∈ rest <;> by_cases h2 : c = x <;>
      simp [applyCmd, List.mem_cons, h1, h2]

/-- A batch of cpu_down commands turns the listed cpus offline and leaves
every other cpu unchanged. -/
theorem applyCmds_map_down (o : Nat → Bool) (xs : List Nat) (c : Nat) :
    applyCmds o (xs.map Cmd.down) c = if c ∈ xs then false else o c := by
  induction xs generalizing o with
  | nil => simp [applyCmds]
  | cons x rest ih =>
    have step : applyCmds o ((x :: rest).map Cmd.down) =
        applyCmds (applyCmd o (Cmd.down x)) (rest.map Cmd.down) := rfl
    rw [step, ih]
    by_cases h1 : c ∈ rest <;> by_cases h2 : c = x <;>
      simp [applyCmd, List.mem_cons, h1, h2]

/-- applyCmds distributes over list append. -/
theorem applyCmds_append (o : Nat → Bool) (l1 l2 : List Cmd) :
    applyCmds o (l1 ++ l2) = applyCmds (applyCmds o l1) l2 :=
  List.foldl_append _ _ _ _

/-- No cpu_up command occurs in a mapped cpu_down batch. -/
theorem up_not_mem_map_down (c : Nat) (l : List Nat) :
    Cmd.up c ∉ l.map Cmd.down := by
  simp

/-- No cpu_down command occurs in a mapped cpu_up batch. -/
theorem down_not_mem_map_up (c : Nat) (l : List Nat) :
    Cmd.down c ∉ l.map Cmd.up := by
  simp

/-- set_cpus issues only cpu_down commands. -/
theorem set_cpus_no_up (s : LPState) (c : Nat) : Cmd.up c ∉ set_cpus s := by
  unfold set_cpus
  exact up_not_mem_map_down c _

/-- The scale-up command list outside lazy mode: cpus 1 .. nr_cpu_ids-1. -/
theorem cpu_all_ctrl_true_nonlazy (ids : Nat) :
    cpu_all_ctrl false ids true = (List.range' 1 (ids - 1)).map Cmd.up := rfl

/-- The scale-down command list: cpus nr_cpu_ids-1 .. 2. -/
theorem cpu_all_ctrl_false_cmds (lm : Bool) (ids : Nat) :
    cpu_all_ctrl lm ids false = ((List.range' 2 (ids - 2)).reverse).map Cmd.down := rfl

/-- The forced scale-up cpu_all_ctrl(true) issues only cpu_up commands. -/
theorem cpu_all_ctrl_true_no_down (lm : Bool) (ids c : Nat) :
    Cmd.down c ∉ cpu_all_ctrl lm ids true := by
  unfold cpu_all_ctrl
  cases lm with
  | false =>
    simp only [if_pos rfl, Bool.false_eq_true, if_false]
    exact down_not_mem_map_up c _
  | true =>
    simp

/-- C4: while the suspended flag is true, a periodic tick never issues a
cpu_up command, whatever the sample and the per-cpu snapshot are (the
scale-up path is inside the not-suspended branch); the explicit resume
event path, by contrast, does issue cpu_up commands whenever the
controller is active and there is more than one cpu. -/
theorem C4_suspended_no_scale_up (percpu : Nat → Nat) (avg : Nat) (s : LPState)
    (hsusp : s.suspended = true) :
    (∀ c, Cmd.up c ∉ (lazyplug_work_fn percpu avg s).2)
    ∧ (s.lazyplug_active ≠ 0 → 2 ≤ s.nr_cpu_ids →
        ∃ c, Cmd.up c ∈ (lazyplug_resume s).2) := by
  constructor
  · intro c
    simp only [lazyplug_work_fn]
    split
    · simp only [hsusp]
      rw [if_neg (by simp)]
      split
      · exact set_cpus_no_up _ c
      · simp
    · simp
  · intro hact hids
    simp only [lazyplug_resume]
    rw [if_pos hact]
    refine ⟨1, ?_⟩
    show Cmd.up 1 ∈ cpu_all_ctrl s.lazymode s.nr_cpu_ids true ++
      cpu_all_ctrl s.lazymode s.nr_cpu_ids true
    apply List.mem_append_left
    cases hlm : s.lazymode with
    | true => simp [cpu_all_ctrl]
    | false =>
      rw [cpu_all_ctrl_true_nonlazy]
      refine List.mem_map.mpr ⟨1, ?_, rfl⟩
      rw [List.mem_range'_1]
      omega

/-- Witness for C4_suspended_no_scale_up at the suspended octa state. -/
theorem C4_suspended_no_scale_up_witness :
    Cmd.up 3 ∉ (lazyplug_work_fn (fun _ => 0) 0 sSusp).2 :=
  (C4_suspended_no_scale_up (fun _ => 0) 0 sSusp rfl).1 3

/-- C5, counterexample.  In lazy mode (lazymode = true) the suspend /
resume round trip does NOT restore the pool to all online: suspend takes
cpus 7..2 down, and the resume scale-up in lazy mode brings only cpus
1..3 back, so cpu 4 (online before) stays offline and is never commanded
online; persist_count and suspended are still set as claimed. -/
theorem C5_counterexample :
    sLazy.online 4 = true
    ∧ (lazyplug_resume (lazyplug_suspend sLazy).1).1.online 4 = false
    ∧ Cmd.up 4 ∉ (lazyplug_resume (lazyplug_suspend sLazy).1).2
    ∧ (lazyplug_resume (lazyplug_suspend sLazy).1).1.persist_count = 26
    ∧ (lazyplug_resume (lazyplug_suspend sLazy).1).1.suspended = false := by decide

/-- C5 (amended): when the controller is active, lazy mode is off and the
reserved worker 0 is online, lazyplug_suspend followed immediately by
lazyplug_resume leaves every cpu below nr_cpu_ids online, leaves
persist_count equal to the cooldown constant 3500 / 132 = 26, and leaves
suspended false, whatever tier was computed in between (no tick runs in
between; the round trip's commands do not depend on nr_run_last). -/
theorem C5_suspend_resume (s : LPState) (hact : s.lazyplug_active ≠ 0)
    (hlazy : s.lazymode = false) (h0 : s.online 0 = true) :
    (∀ c, c < s.nr_cpu_ids →
      (lazyplug_resume (lazyplug_suspend s).1).1.online c = true)
    ∧ (lazyplug_resume (lazyplug_suspend s).1).1.persist_count = 26
    ∧ (lazyplug_resume (lazyplug_suspend s).1).1.suspended = false := by
  have hpair : lazyplug_suspend s = ({ s with
      suspended := true
      cac_bool := false
      online := applyCmds s.online
        (((List.range' 2 (s.nr_cpu_ids - 2)).reverse).map Cmd.down) },
      ((List.range' 2 (s.nr_cpu_ids - 2)).reverse).map Cmd.down) := by
    unfold lazyplug_suspend
    rw [if_pos hact]
    rfl
  rw [hpair]
  have hpair2 : lazyplug_resume ({ s with
      suspended := true
      cac_bool := false
      online := applyCmds s.online
        (((List.range' 2 (s.nr_cpu_ids - 2)).reverse).map Cmd.down) } : LPState) =
      ({ s with
        suspended := false
        cac_bool := true
        persist_count := (BUSY_PERSISTENCE : Int)
        online := applyCmds (applyCmds s.online
          (((List.range' 2 (s.nr_cpu_ids - 2)).reverse).map Cmd.down))
          (cpu_all_ctrl s.lazymode s.nr_cpu_ids true ++
            cpu_all_ctrl s.lazymode s.nr_cpu_ids true) },
       cpu_all_ctrl s.lazymode s.nr_cpu_ids true ++
         cpu_all_ctrl s.lazymode s.nr_cpu_ids true) := by
    unfold lazyplug_resume
    rw [if_pos hact]
  rw [hpair2]
  refine ⟨?_, rfl, rfl⟩
  intro c hc
  show applyCmds (applyCmds s.online
      (((List.range' 2 (s.nr_cpu_ids - 2)).reverse).map Cmd.down))
      (cpu_all_ctrl s.lazymode s.nr_cpu_ids true ++
        cpu_all_ctrl s.lazymode s.nr_cpu_ids true) c = true
  rw [hlazy, cpu_all_ctrl_true_nonlazy, ← List.map_append, applyCmds_map_up]
  by_cases hc1 : 1 ≤ c
  · have hmem : c ∈ List.range' 1 (s.nr_cpu_ids - 1) := by
      rw [List.mem_range'_1]
      omega
    rw [if_pos (List.mem_append.mpr (Or.inl hmem))]
  · have hc0 : c = 0 := by omega
    subst hc0
    have hnu : (0 : Nat) ∉ List.range' 1 (s.nr_cpu_ids - 1) ++
        List.range' 1 (s.nr_cpu_ids - 1) := by
      intro hmem
      rcases List.mem_append.mp hmem with h | h <;>
        (rw [List.mem_range'_1] at h; omega)
    have hnd : (0 : Nat) ∉ (List.range' 2 (s.nr_cpu_ids - 2)).reverse := by
      intro hmem
      rw [List.mem_reverse, List.mem_range'_1] at hmem
      omega
    rw [if_neg hnu, applyCmds_map_down, if_neg hnd]
    exact h0

/-- Witness for C5_suspend_resume at the octa state s8. -/
theorem C5_suspend_resume_witness :
    (lazyplug_resume (lazyplug_suspend s8).1).1.online 5 = true :=
  (C5_suspend_resume s8 (by decide) rfl rfl).1 5 (by decide)

/-- Every command issued by a tick comes from set_cpus (a cpu_down batch),
from the idle-shutdown batch, or from the forced scale-up
cpu_all_ctrl(true). -/
theorem work_fn_cmds_cases (percpu : Nat → Nat) (avg : Nat) (s : LPState) :
    ∀ x, x ∈ (lazyplug_work_fn percpu avg s).2 →
      (∃ s1, x ∈ set_cpus s1) ∨ x ∈ batchDown ∨
        x ∈ cpu_all_ctrl s.lazymode s.nr_cpu_ids true := by
  intro x hx
  simp only [lazyplug_work_fn] at hx
  repeat' split at hx
  all_goals
    first
    | exact absurd hx (List.not_mem_nil x)
    | exact Or.inl ⟨_, hx⟩
    | exact Or.inr (Or.inl hx)
    | exact Or.inr (Or.inr hx)
    | (rcases List.mem_append.mp hx with hx | hx <;>
        first
        | exact absurd hx (List.not_mem_nil x)
        | exact Or.inl ⟨_, hx⟩
        | exact Or.inr (Or.inl hx)
        | exact Or.inr (Or.inr hx))

/-- C10: while lazymode is true, the forced scale-up cpu_all_ctrl(true)
commands exactly workers 1, 2, 3 online (never any index >= 4); in
particular a resume event during lazy mode issues no cpu_up for any
worker index >= 4, and neither does a periodic tick (whose only scale-up
is cpu_all_ctrl(true)). -/
theorem C10_lazy_first_cluster (s : LPState) (percpu : Nat → Nat) (avg : Nat)
    (hlazy : s.lazymode = true) :
    cpu_all_ctrl s.lazymode s.nr_cpu_ids true = [Cmd.up 1, Cmd.up 2, Cmd.up 3]
    ∧ (∀ c, 4 ≤ c → Cmd.up c ∉ (lazyplug_resume s).2)
    ∧ (∀ c, 4 ≤ c → Cmd.up c ∉ (lazyplug_work_fn percpu avg s).2) := by
  have hctrl : cpu_all_ctrl s.lazymode s.nr_cpu_ids true =
      [Cmd.up 1, Cmd.up 2, Cmd.up 3] := by
    rw [hlazy]
    rfl
  refine ⟨hctrl, ?_, ?_⟩
  · intro c hc
    simp only [lazyplug_resume]
    split
    · simp only [hctrl]
      intro hmem
      rcases List.mem_append.mp hmem with h | h <;>
        · simp only [List.mem_cons, List.not_mem_nil, or_false] at h
          rcases h with h | h | h <;> (injection h with h; omega)
    · simp
  · intro c hc hmem
    rcases work_fn_cmds_cases percpu avg s (Cmd.up c) hmem with ⟨s1, h⟩ | h | h
    · exact set_cpus_no_up s1 c h
    · simp only [batchDown, List.mem_cons, List.not_mem_nil, or_false] at h
      rcases h with h | h | h | h | h | h <;> exact Cmd.noConfusion h
    · rw [hctrl] at h
      simp only [List.mem_cons, List.not_mem_nil, or_false] at h
      rcases h with h | h | h <;> (injection h with h; omega)

/-- Witness for C10_lazy_first_cluster on the lazy-mode octa state. -/
theorem C10_lazy_first_cluster_witness :
    Cmd.up 5 ∉ (lazyplug_resume sLazy).2 :=
  (C10_lazy_first_cluster sLazy (fun _ => 0) 0 rfl).2.1 5 (by decide)

/-- A periodic tick never touches the profile selector, the saved
selector, the lazy flag, the active flag, the suspended flag, the
hysteresis, nor the cpu-count configuration. -/
theorem work_fn_preserves (percpu : Nat → Nat) (avg : Nat) (s : LPState) :
    (lazyplug_work_fn percpu avg s).1.nr_run_profile_sel = s.nr_run_profile_sel
    ∧ (lazyplug_work_fn percpu avg s).1.Lnr_run_profile_sel = s.Lnr_run_profile_sel
    ∧ (lazyplug_work_fn percpu avg s).1.lazymode = s.lazymode
    ∧ (lazyplug_work_fn percpu avg s).1.lazyplug_active = s.lazyplug_active
    ∧ (lazyplug_work_fn percpu avg s).1.suspended = s.suspended
    ∧ (lazyplug_work_fn percpu avg s).1.nr_run_hysteresis = s.nr_run_hysteresis
    ∧ (lazyplug_work_fn percpu avg s).1.NR_CPUS = s.NR_CPUS
    ∧ (lazyplug_work_fn percpu avg s).1.nr_possible_cores = s.nr_possible_cores
    ∧ (lazyplug_work_fn percpu avg s).1.nr_cpu_ids = s.nr_cpu_ids := by
  simp only [lazyplug_work_fn]
  repeat' split
  all_goals simp

/-- C6: if lazy mode is off, then lazyplug_enter_lazy(true), any number
of periodic ticks (which mutate nr_run_last, the current tier), and then
lazyplug_enter_lazy(false) restore the profile selector to exactly its
pre-entry value and leave lazymode false. -/
theorem C6_lazy_roundtrip (percpu : Nat → Nat → Nat) (avgs : Nat → Nat) (n : Nat)
    (s : LPState) (hlazy : s.lazymode = false) :
    (lazyplug_enter_lazy false
        (iterTicks percpu avgs (lazyplug_enter_lazy true s).1 n)).1.nr_run_profile_sel =
      s.nr_run_profile_sel
    ∧ (lazyplug_enter_lazy false
        (iterTicks percpu avgs (lazyplug_enter_lazy true s).1 n)).1.lazymode = false := by
  have hs1 : (lazyplug_enter_lazy true s).1.Lnr_run_profile_sel = s.nr_run_profile_sel
      ∧ (lazyplug_enter_lazy true s).1.lazymode = true := by
    simp only [lazyplug_enter_lazy, hlazy]
    simp
  have hiter : ∀ m,
      (iterTicks percpu avgs (lazyplug_enter_lazy true s).1 m).Lnr_run_profile_sel =
        s.nr_run_profile_sel
      ∧ (iterTicks percpu avgs (lazyplug_enter_lazy true s).1 m).lazymode = true := by
    intro m
    induction m with
    | zero => exact hs1
    | succ k ih =>
      have hp := work_fn_preserves (percpu k) (avgs k)
        (iterTicks percpu avgs (lazyplug_enter_lazy true s).1 k)
      exact ⟨hp.2.1.trans ih.1, hp.2.2.1.trans ih.2⟩
  have hexit : ∀ t : LPState, t.lazymode = true →
      (lazyplug_enter_lazy false t).1.nr_run_profile_sel = t.Lnr_run_profile_sel
      ∧ (lazyplug_enter_lazy false t).1.lazymode = false := by
    intro t ht
    simp only [lazyplug_enter_lazy, ht]
    simp
  exact ⟨((hexit _ (hiter n).2).1).trans (hiter n).1, (hexit _ (hiter n).2).2⟩

/-- Witness for C6_lazy_roundtrip: one tick in between, octa state. -/
theorem C6_lazy_roundtrip_witness :
    (lazyplug_enter_lazy false
        (iterTicks (fun _ _ => 0) (fun _ => 0) (lazyplug_enter_lazy true s8).1 1)).1.nr_run_profile_sel =
      s8.nr_run_profile_sel :=
  (C6_lazy_roundtrip (fun _ _ => 0) (fun _ => 0) 1 s8 rfl).1

/-- C9: persist_count is an Int in the source; starting nonnegative it
stays nonnegative, a tick decrements it by at most 1 and never raises it;
when a tick issues the idle-shutdown batch (a cpu_down of worker 2, which
with the administrative cap inactive can come only from that batch), the
persist counter at the moment of that decision is 0; suspend and
lazy-mode transitions leave it unchanged; only the resume event raises
it, setting it to the cooldown constant BUSY_PERSISTENCE = 26. -/
theorem C9_persist (percpu : Nat → Nat) (avg : Nat) (s : LPState) (e : Bool)
    (hnn : 0 ≤ s.persist_count) (hset : s.NR_CPUS ≤ s.nr_possible_cores) :
    (0 ≤ (lazyplug_work_fn percpu avg s).1.persist_count
      ∧ (lazyplug_work_fn percpu avg s).1.persist_count ≤ s.persist_count
      ∧ s.persist_count - 1 ≤ (lazyplug_work_fn percpu avg s).1.persist_count)
    ∧ (Cmd.down 2 ∈ (lazyplug_work_fn percpu avg s).2 →
        (lazyplug_work_fn percpu avg s).1.persist_count = 0)
    ∧ (lazyplug_suspend s).1.persist_count = s.persist_count
    ∧ (lazyplug_enter_lazy e s).1.persist_count = s.persist_count
    ∧ (s.lazyplug_active ≠ 0 → (lazyplug_resume s).1.persist_count = 26) := by
  refine ⟨?_, ?_, ?_, ?_, ?_⟩
  · simp only [lazyplug_work_fn]
    repeat' split
    all_goals simp
    all_goals omega
  · simp only [lazyplug_work_fn]
    repeat' split
    all_goals intro hmem
    all_goals simp_all [cpu_all_ctrl_true_no_down]
    all_goals omega
  · simp only [lazyplug_suspend]
    split
    all_goals simp
  · simp only [lazyplug_enter_lazy]
    repeat' split
    all_goals simp
  · intro hact
    simp only [lazyplug_resume]
    rw [if_pos hact]
    rfl

/-- Witness for C9_persist at the octa state: the resume conjunct. -/
theorem C9_persist_witness :
    (lazyplug_resume s8).1.persist_count = 26 :=
  (C9_persist (fun _ => 0) 0 s8 true (by decide) (by decide)).2.2.2.2 (by decide)

/-- A batch member of unplugLoop's loop list with an online cpu present
contributes at least one cpu to num_online_cpus. -/
theorem num_online_pos (o : Nat → Bool) (ids a : Nat) (ha : a < ids)
    (ho : o a = true) : 0 < num_online_cpus o ids := by
  unfold num_online_cpus
  exact List.length_pos_of_mem
    (List.mem_filter.mpr ⟨List.mem_range.mpr ha, ho⟩)

/-- Soundness of unplugLoop: a cpu_down of worker c is issued only if c is
above the floor, was online, and its recorded per-cpu load was strictly
below the threshold computed from some positive online count. -/
theorem unplugLoop_down_mem (ip : Nat → Nat) (base m ids c : Nat) :
    ∀ (L : List Nat) (online : Nat → Bool), (∀ a ∈ L, a < ids) →
      Cmd.down c ∈ (unplugLoop ip base m ids L online).2 →
      m < c ∧ online c = true ∧
        ∃ n, 0 < n ∧ ip c < l_nr_threshold base n := by
  intro L
  induction L with
  | nil =>
    intro o _ h
    simp [unplugLoop] at h
  | cons a rest ih =>
    intro o hlt h
    simp only [unplugLoop] at h
    by_cases ho : o a = true
    · rw [if_pos ho] at h
      by_cases hcond : m < a ∧ ip a < l_nr_threshold base (num_online_cpus o ids)
      · rw [if_pos hcond] at h
        rcases List.mem_cons.mp h with hca | hmem
        · injection hca with hca
          subst hca
          exact ⟨hcond.1, ho, num_online_cpus o ids,
            num_online_pos o ids c (hlt c (List.mem_cons_self c rest)) ho, hcond.2⟩
        · have h3 := ih _ (fun x hx => hlt x (List.mem_cons_of_mem a hx)) hmem
          refine ⟨h3.1, ?_, h3.2.2⟩
          have h4 := h3.2.1
          by_cases hca : c = a
          · rw [if_pos hca] at h4
            exact absurd h4 (by simp)
          · rwa [if_neg hca] at h4
      · rw [if_neg hcond] at h
        exact ih _ (fun x hx => hlt x (List.mem_cons_of_mem a hx)) h
    · rw [if_neg ho] at h
      exact ih _ (fun x hx => hlt x (List.mem_cons_of_mem a hx)) h

/-- C3, counterexample.  With cpus 0..2 online, per-cpu load 1000 and the
default base threshold 1175, the code takes cpu 2 (and then cpu 1) down,
although 1000 is NOT strictly below the claimed per-worker threshold
(1175 * 2) / 3 = 783: the threshold actually used is 1175 << (1/3) = 1175
because in C the division binds tighter than the shift. -/
theorem C3_counterexample :
    (unplug_cpu sC3 0).2 = [Cmd.down 2, Cmd.down 1]
    ∧ l_nr_threshold sC3.cpu_nr_run_threshold 3 = 1175
    ∧ sC3.cpu_nr_run_threshold * 2 / 3 = 783
    ∧ ¬ (sC3.ip_info 2 < sC3.cpu_nr_run_threshold * 2 / 3) := by decide

/-- C3 (amended): the per-worker threshold computed at line 300 is
cpu_nr_run_threshold << (1 / onlineCount) — i.e. double the base when
exactly one worker is online and the unshifted base otherwise, not
(base * 2) / onlineCount — and a worker is taken offline only if it is
above the floor, online, and its individual load is strictly below the
threshold obtained from some positive online count. -/
theorem C3_unplug_threshold :
    (∀ base n, 0 < n →
      l_nr_threshold base n = (if n = 1 then base <<< 1 else base) % U32)
    ∧ (∀ (s : LPState) (m c : Nat), Cmd.down c ∈ (unplug_cpu s m).2 →
        m < c ∧ s.online c = true ∧
          ∃ n, 0 < n ∧ s.ip_info c < l_nr_threshold s.cpu_nr_run_threshold n) := by
  constructor
  · intro base n hn
    unfold l_nr_threshold
    match n, hn with
    | 1, _ => rfl
    | (k + 2), _ =>
      rw [if_neg (by omega)]
      rw [Nat.div_eq_of_lt (by omega)]
      rfl
  · intro s m c h
    refine unplugLoop_down_mem s.ip_info s.cpu_nr_run_threshold m s.nr_cpu_ids c
      _ s.online ?_ h
    intro a ha
    rw [List.mem_reverse, List.mem_range'_1] at ha
    omega

/-- Witness for C3_unplug_threshold: the threshold formula at base 1175
with 3 workers online, and the soundness conclusion for the cpu_down(2)
issued on sC3. -/
theorem C3_unplug_threshold_witness :
    (l_nr_threshold 1175 3 = (if 3 = 1 then 1175 <<< 1 else 1175) % U32)
    ∧ (0 < 2 ∧ sC3.online 2 = true ∧
        ∃ n, 0 < n ∧ sC3.ip_info 2 < l_nr_threshold sC3.cpu_nr_run_threshold n) :=
  ⟨C3_unplug_threshold.1 1175 3 (by decide),
   C3_unplug_threshold.2 sC3 0 2 (by decide)⟩

/-- One active, not-suspended, lowest-tier tick with persist_count 0, the
administrative cap inactive and idle_count + 1 still below the idle
threshold: idle_count increments and no command is issued. -/
theorem work_fn_idle_step_nofire (percpu : Nat → Nat) (avg : Nat) (t : LPState)
    (hact : t.lazyplug_active ≠ 0) (hsusp : t.suspended = false)
    (hper : t.persist_count = 0) (hset : ¬ t.nr_possible_cores < t.NR_CPUS)
    (htier : calculate_thread_stats t.nr_run_profile_sel t.nr_run_last
      t.nr_run_hysteresis avg = 1)
    (hidle : t.idle_count < DEF_IDLE_COUNT)
    (hnf : t.idle_count + 1 ≠ DEF_IDLE_COUNT) :
    (lazyplug_work_fn percpu avg t).1.suspended = false
    ∧ (lazyplug_work_fn percpu avg t).1.lazyplug_active = t.lazyplug_active
    ∧ (lazyplug_work_fn percpu avg t).1.persist_count = 0
    ∧ (lazyplug_work_fn percpu avg t).1.idle_count = t.idle_count + 1
    ∧ (lazyplug_work_fn percpu avg t).1.NR_CPUS = t.NR_CPUS
    ∧ (lazyplug_work_fn percpu avg t).1.nr_possible_cores = t.nr_possible_cores
    ∧ (lazyplug_work_fn percpu avg t).2 = [] := by
  simp [lazyplug_work_fn, htier, hper, hsusp, hidle, hset, hact, hnf]

/-- The 19th consecutive such tick (idle_count at 18): idle_count reaches
DEF_IDLE_COUNT and the batch offline command for cpus 7..2 is issued. -/
theorem work_fn_idle_step_fire (percpu : Nat → Nat) (avg : Nat) (t : LPState)
    (hact : t.lazyplug_active ≠ 0) (hsusp : t.suspended = false)
    (hper : t.persist_count = 0) (hset : ¬ t.nr_possible_cores < t.NR_CPUS)
    (htier : calculate_thread_stats t.nr_run_profile_sel t.nr_run_last
      t.nr_run_hysteresis avg = 1)
    (hidle : t.idle_count = 18) :
    (lazyplug_work_fn percpu avg t).1.idle_count = DEF_IDLE_COUNT
    ∧ (lazyplug_work_fn percpu avg t).2 = batchDown := by
  simp [lazyplug_work_fn, htier, hper, hsusp, hset, hact, hidle, DEF_IDLE_COUNT]

/-- C1, counterexample.  With the suspended flag TRUE (as the claim
demands), the controller active, persist_count 0 and the evaluator
returning the lowest tier on all of the first 19 ticks (sample 0), the
tick issues NO command at all on any of those ticks — in particular not
the batch offline on the 19th — because in the code the whole
persist/idle/batch-offline handling sits under if (!suspended): the spec
attributes it to the Suspended state, the code runs it only when not
suspended. -/
theorem C1_counterexample :
    sSusp.suspended = true
    ∧ sSusp.lazyplug_active ≠ 0
    ∧ sSusp.persist_count = 0
    ∧ ((List.range 19).all fun i =>
        calculate_thread_stats
          (iterTicks (fun _ _ => 0) (fun _ => 0) sSusp i).nr_run_profile_sel
          (iterTicks (fun _ _ => 0) (fun _ => 0) sSusp i).nr_run_last
          (iterTicks (fun _ _ => 0) (fun _ => 0) sSusp i).nr_run_hysteresis 0 == 1) = true
    ∧ ((List.range 19).all fun i =>
        decide (cmdsAt (fun _ _ => 0) (fun _ => 0) sSusp i = [])) = true := by decide

/-- C1 (amended): with the suspended flag FALSE (the code's condition for
the idle path; the claim said true), the controller active, persist_count
0, idle_count 0, the administrative cap inactive, and the evaluator
returning the lowest tier on the first 19 ticks, the controller issues no
command on ticks 1..18 and issues the batch offline command for all
non-reserved workers (cpus 7..2, highest first) exactly on the 19th
tick. -/
theorem C1_idle_shutdown (percpu : Nat → Nat → Nat) (avgs : Nat → Nat) (s : LPState)
    (hact : s.lazyplug_active ≠ 0) (hsusp : s.suspended = false)
    (hper : s.persist_count = 0) (hidle : s.idle_count = 0)
    (hset : s.NR_CPUS ≤ s.nr_possible_cores)
    (htier : ∀ i, i < 19 →
      calculate_thread_stats (iterTicks percpu avgs s i).nr_run_profile_sel
        (iterTicks percpu avgs s i).nr_run_last
        (iterTicks percpu avgs s i).nr_run_hysteresis (avgs i) = 1) :
    (∀ i, i < 18 → cmdsAt percpu avgs s i = [])
    ∧ cmdsAt percpu avgs s 18 = batchDown := by
  have inv : ∀ i, i ≤ 18 →
      (iterTicks percpu avgs s i).lazyplug_active = s.lazyplug_active
      ∧ (iterTicks percpu avgs s i).suspended = false
      ∧ (iterTicks percpu avgs s i).persist_count = 0
      ∧ (iterTicks percpu avgs s i).idle_count = i
      ∧ (iterTicks percpu avgs s i).NR_CPUS = s.NR_CPUS
      ∧ (iterTicks percpu avgs s i).nr_possible_cores = s.nr_possible_cores := by
    intro i
    induction i with
    | zero => exact fun _ => ⟨rfl, hsusp, hper, hidle, rfl, rfl⟩
    | succ k ih =>
      intro hk
      obtain ⟨k1, k2, k3, k4, k5, k6⟩ := ih (by omega)
      obtain ⟨h1, h2, h3, h4, h5, h6, h7⟩ :=
        work_fn_idle_step_nofire (percpu k) (avgs k) (iterTicks percpu avgs s k)
          (by rw [k1]; exact hact) k2 k3
          (by rw [k6, k5]; omega)
          (htier k (by omega))
          (by rw [k4]; unfold DEF_IDLE_COUNT; omega)
          (by rw [k4]; unfold DEF_IDLE_COUNT; omega)
      exact ⟨h2.trans k1, h1, h3, h4.trans (by rw [k4]), h5.trans k5, h6.trans k6⟩
  constructor
  · intro i hi
    obtain ⟨k1, k2, k3, k4, k5, k6⟩ := inv i (by omega)
    exact (work_fn_idle_step_nofire (percpu i) (avgs i) (iterTicks percpu avgs s i)
      (by rw [k1]; exact hact) k2 k3
      (by rw [k6, k5]; omega)
      (htier i (by omega))
      (by rw [k4]; unfold DEF_IDLE_COUNT; omega)
      (by rw [k4]; unfold DEF_IDLE_COUNT; omega)).2.2.2.2.2.2
  · obtain ⟨k1, k2, k3, k4, k5, k6⟩ := inv 18 (Nat.le_refl _)
    exact (work_fn_idle_step_fire (percpu 18) (avgs 18) (iterTicks percpu avgs s 18)
      (by rw [k1]; exact hact) k2 k3
      (by rw [k6, k5]; omega)
      (htier 18 (by omega)) k4).2

/-- Witness for C1_idle_shutdown: the octa state s8 under constant sample
0 issues the batch on the 19th tick. -/
theorem C1_idle_shutdown_witness :
    cmdsAt (fun _ _ => 0) (fun _ => 0) s8 18 = batchDown :=
  (C1_idle_shutdown (fun _ _ => 0) (fun _ => 0) s8 (by decide) rfl rfl rfl
    (by decide) (by decide)).2

end Lazyplug
